import Mathlib

/-!
Verification of the request-relay pipeline of the help-desk classifier bot
(`src/bot.py`): the classification client (`APIClient.classify_message`),
the response normalizer and reply formatter (`process_api_response`,
`MessageFormatter`), and the retry orchestrator (`handle_message`).

Python values appearing in JSON payloads are shallowly embedded as `PyVal`;
Python dicts are association lists in insertion order (matching CPython's
ordered dicts); fallible Python operations (subscripting, attribute access,
iteration) are `Except String` computations whose `error` branch models an
escaping Python exception.
-/

set_option autoImplicit false

/-- Model of a Python value as it can occur in the JSON payloads handled by
the bot: `None`, strings, booleans, integers, lists and (ordered) dicts with
string keys. -/
inductive PyVal where
  | none
  | str (s : String)
  | bool (b : Bool)
  | int (n : Int)
  | list (xs : List PyVal)
  | dict (xs : List (String × PyVal))

/-- Python truthiness (`bool(v)`): `None` is falsy, a string is truthy iff
non-empty, a container is truthy iff non-empty, `0` is falsy. -/
def PyVal.truthy : PyVal → Bool
  | .none => false
  | .str s => !(s == "")
  | .bool b => b
  | .int n => !(n == 0)
  | .list xs => !xs.isEmpty
  | .dict xs => !xs.isEmpty

mutual
/-- Models Python `str(v)` as used by f-string interpolation: identity on
strings, `None`/`True`/`False` for the singletons, decimal for integers,
and the `repr`-based rendering for containers (quote escaping inside
reprs is not modelled; no theorem depends on container rendering). -/
def PyVal.pyStr : PyVal → String
  | .none => "None"
  | .str s => s
  | .bool b => if b then "True" else "False"
  | .int n => toString n
  | .list xs => "[" ++ pyReprListBody xs ++ "]"
  | .dict xs => "\x7b" ++ pyReprDictBody xs ++ "\x7d"

/-- Models Python `repr(v)` (strings get quoted). -/
def PyVal.pyRepr : PyVal → String
  | .none => "None"
  | .str s => "'" ++ s ++ "'"
  | .bool b => if b then "True" else "False"
  | .int n => toString n
  | .list xs => "[" ++ pyReprListBody xs ++ "]"
  | .dict xs => "\x7b" ++ pyReprDictBody xs ++ "\x7d"

/-- Comma-separated reprs of a list's elements. -/
def pyReprListBody : List PyVal → String
  | [] => ""
  | [x] => x.pyRepr
  | x :: xs => x.pyRepr ++ ", " ++ pyReprListBody xs

/-- Comma-separated `'key': repr(value)` entries of a dict. -/
def pyReprDictBody : List (String × PyVal) → String
  | [] => ""
  | [(k, v)] => "'" ++ k ++ "': " ++ v.pyRepr
  | (k, v) :: xs => "'" ++ k ++ "': " ++ v.pyRepr ++ ", " ++ pyReprDictBody xs
end

/-- First value stored under key `k` in an association-list dict (Python
dicts have unique keys, so first match is the stored value). -/
def lookupAssoc (xs : List (String × PyVal)) (k : String) : Option PyVal :=
  match xs with
  | [] => Option.none
  | p :: rest => if p.1 = k then some p.2 else lookupAssoc rest k

/-- Models Python dict assignment `d[k] = v`: an existing key keeps its
position (in-place update); a new key is appended at the end. -/
def pySet (xs : List (String × PyVal)) (k : String) (v : PyVal) : List (String × PyVal) :=
  match xs with
  | [] => [(k, v)]
  | p :: rest => if p.1 = k then (k, v) :: rest else p :: pySet rest k v

/-- Models the Python method call `v.get(k, dflt)`: succeeds on a dict,
raises `AttributeError` on anything else (only dicts have `.get`). -/
def pyDictGet (v : PyVal) (k : String) (dflt : PyVal) : Except String PyVal :=
  match v with
  | .dict xs => .ok ((lookupAssoc xs k).getD dflt)
  | _ => .error "AttributeError: object has no attribute get"

/-- Models Python subscripting `v[k]` with a string key: `KeyError` when the
key is absent from a dict, `TypeError` on a non-dict. -/
def pySubscript (v : PyVal) (k : String) : Except String PyVal :=
  match v with
  | .dict xs =>
    match lookupAssoc xs k with
    | some r => .ok r
    | Option.none => .error ("KeyError: " ++ k)
  | _ => .error "TypeError: object is not subscriptable"

/-- Models Python iteration `for x in v`: lists yield elements, dicts yield
keys, strings yield characters; everything else raises `TypeError`. -/
def pyIter (v : PyVal) : Except String (List PyVal) :=
  match v with
  | .list xs => .ok xs
  | .dict xs => .ok (xs.map fun p => .str p.1)
  | .str s => .ok (s.data.map fun c => .str (String.singleton c))
  | _ => .error "TypeError: object is not iterable"

/-- Models `table.get(key, key)` followed by f-string rendering, as done by
both formatters on attribute names: a string key is looked up in the
localization table (falling back to itself); other hashable values fall
through to their `str()` rendering; unhashable values (lists, dicts) raise
`TypeError`. -/
def localizeKey (table : List (String × String)) (key : PyVal) : Except String String :=
  match key with
  | .str s => .ok ((table.lookup s).getD s)
  | .list _ => .error "TypeError: unhashable type"
  | .dict _ => .error "TypeError: unhashable type"
  | k => .ok k.pyStr

/-- Localization table of `MessageFormatter.format_successful_classification`. -/
def attrNamesSuccess : List (String × String) :=
  [("equipment_type", "Тип оборудования"),
   ("failure_point", "Тип неисправности"),
   ("serial_number", "Серийный номер")]

/-- Localization table of `MessageFormatter.format_missing_info`. -/
def attrNamesMissing : List (String × String) :=
  [("equipment_type", "тип оборудования"),
   ("failure_point", "тип неисправности"),
   ("serial_number", "серийный номер")]

/-- The `APIResponse` class of `bot.py`. -/
structure APIResponse where
  success : Bool
  data : PyVal
  error : Option String

/-- The `APIResponse.__init__` constructor: `self.data = data or {}` coerces a
falsy or omitted `data` argument to the empty dict. -/
def APIResponse.make (success : Bool) (data : Option PyVal) (error : Option String) : APIResponse :=
  { success := success
    data := match data with
      | some d => if d.truthy then d else .dict []
      | Option.none => .dict []
    error := error }

/-- The environment-derived configuration values of the `Config` class that
the core pipeline reads. -/
structure Config where
  MAX_RETRIES : Nat
  TIMEOUT : Nat
  MAX_TEXT_LENGTH : Nat
  RETRY_DELAY : Nat

/-- Default configuration (`MAX_RETRIES=3`, `TIMEOUT=120`,
`MAX_TEXT_LENGTH=4096`, `RETRY_DELAY=5`). -/
def defaultConfig : Config :=
  { MAX_RETRIES := 3, TIMEOUT := 120, MAX_TEXT_LENGTH := 4096, RETRY_DELAY := 5 }

/-- Models the Python slice `s[:n]` (first `n` characters). -/
def pySlice (s : String) (n : Nat) : String := ⟨s.data.take n⟩

/-- Outcome of the single HTTP POST inside `classify_message`, as observed at
the `try` block's boundary: a response (status, raw body text, and the result
of parsing the body as JSON), an `asyncio.TimeoutError`, or another escaping
transport-level exception. -/
inductive HttpOutcome where
  | response (status : Nat) (body : String) (json : Except String PyVal)
  | timeoutError
  | exception (message : String)

/-- A call to `APIClient.classify_message`: the JSON request body it sends
and the `APIResponse` it returns. -/
structure ClassifyCall where
  requestBody : List (String × PyVal)
  result : APIResponse

/-- The `APIClient.classify_message` method: truncates over-long text, builds
the request body, and converts every HTTP outcome into an `APIResponse` —
status 200 with parseable JSON becomes a success; a non-200 status, a timeout,
a JSON parse error or any other exception is caught and becomes a failure
with a descriptive reason. -/
def classify_message (cfg : Config) (text : String) (outcome : HttpOutcome) : ClassifyCall :=
  let t := if text.length > cfg.MAX_TEXT_LENGTH then pySlice text cfg.MAX_TEXT_LENGTH else text
  { requestBody :=
      [("text", .str t), ("name", .none), ("topic", .none), ("generate_answer", .bool true)]
    result :=
      match outcome with
      | .response status body json =>
        if status = 200 then
          match json with
          | .ok r => APIResponse.make true (some r) Option.none
          | .error e => APIResponse.make false Option.none (some e)
        else
          APIResponse.make false Option.none
            (some ("API вернул статус " ++ toString status ++ ": " ++ body))
      | .timeoutError =>
        APIResponse.make false Option.none (some "Превышено время ожидания ответа")
      | .exception m => APIResponse.make false Option.none (some m) }

/-- The generic apology returned by `process_api_response` when the
`APIResponse` is a clean failure. -/
def processingErrorApology : String :=
  "Произошла ошибка при обработке заявки. Пожалуйста, попробуйте позже."

/-- The apology sent by `handle_message` after the last retry fails. -/
def retryExhaustedApology : String :=
  "Извините, произошла ошибка при обработке вашего сообщения. Пожалуйста, попробуйте позже."

/-- Models the elements of `', '.join(keywords)`: each item must already be a
string, otherwise `join` raises `TypeError`. -/
def pyJoinPart (v : PyVal) : Except String String :=
  match v with
  | .str s => .ok s
  | _ => .error "TypeError: sequence item: expected str instance"

/-- Loop body of `format_successful_classification`:
`name = attr_names.get(attr['name'], attr['name'])` then
`reply += f"🔹 {name}: {attr['value']}\n"`. -/
def successAttrLine (acc : String) (attr : PyVal) : Except String String := do
  let n ← pySubscript attr "name"
  let name ← localizeKey attrNamesSuccess n
  let v ← pySubscript attr "value"
  pure (acc ++ "🔹 " ++ name ++ ": " ++ v.pyStr ++ "\n")

/-- The `MessageFormatter.format_successful_classification` static method. -/
def format_successful_classification (attributes : PyVal) (keywords : PyVal) :
    Except String String := do
  let attrs ← pyIter attributes
  let reply ← attrs.foldlM successAttrLine "✅ Заявка успешно классифицирована:\n\n"
  if keywords.truthy then
    let kws ← pyIter keywords
    let parts ← kws.mapM pyJoinPart
    pure (reply ++ "\n🔑 Ключевые слова: " ++ ", ".intercalate parts)
  else
    pure reply

/-- Loop body of the "recognized so far" block of `format_missing_info`:
`reply += f"- {name}: {attr['value']}\n"` with the lower-case table. -/
def recognizedAttrLine (acc : String) (attr : PyVal) : Except String String := do
  let n ← pySubscript attr "name"
  let name ← localizeKey attrNamesMissing n
  let v ← pySubscript attr "value"
  pure (acc ++ "- " ++ name ++ ": " ++ v.pyStr ++ "\n")

/-- Loop body of the clarification block of `format_missing_info`:
`readable_name = attr_names.get(attr, attr)` then `reply += f"- {readable_name}\n"`. -/
def clarifyLine (acc : String) (attr : PyVal) : Except String String := do
  let name ← localizeKey attrNamesMissing attr
  pure (acc ++ "- " ++ name ++ "\n")

/-- The `MessageFormatter.format_missing_info` static method. -/
def format_missing_info (missing_attrs : PyVal) (recognized_attrs : PyVal) :
    Except String String := do
  let reply := "⚠️ Для обработки заявки требуется дополнительная информация\n\n"
  let reply ←
    if recognized_attrs.truthy then do
      let attrs ← pyIter recognized_attrs
      let r ← attrs.foldlM recognizedAttrLine (reply ++ "✓ Уже распознано:\n")
      pure (r ++ "\n")
    else
      pure reply
  let ms ← pyIter missing_attrs
  ms.foldlM clarifyLine (reply ++ "❗️ Пожалуйста, уточните:\n")

/-- One entry of the normalization comprehension in `process_api_response`:
`{'name': name, 'value': value} for name, value in data['attributes'].items()
if value is not None`. -/
def normalizeAttributeValue (p : String × PyVal) : Option PyVal :=
  match p.2 with
  | .none => Option.none
  | v => some (.dict [("name", .str p.1), ("value", v)])

/-- The attribute-normalization step of `process_api_response` (lines 145-150):
`if isinstance(data.get('attributes'), dict): data['attributes'] = [...]`.
On a non-dict `data` the `.get` call raises `AttributeError`. -/
def normalizeAttributes (data : PyVal) : Except String PyVal :=
  match data with
  | .dict xs =>
    match lookupAssoc xs "attributes" with
    | some (.dict m) =>
      .ok (.dict (pySet xs "attributes" (.list (m.filterMap normalizeAttributeValue))))
    | _ => .ok (.dict xs)
  | _ => .error "AttributeError: object has no attribute get"

/-- The `process_api_response` coroutine: a clean failure becomes the generic
apology; a success payload with a truthy `answer` is passed through verbatim;
otherwise attributes are normalized and one of the two formatters renders the
reply according to the truthiness of `valid`. An `error` result models an
exception escaping the function (e.g. malformed attribute records). -/
def processApiResponse (response : APIResponse) : Except String PyVal :=
  if response.success = false then
    .ok (.str processingErrorApology)
  else do
    let answer ← pyDictGet response.data "answer" .none
    if answer.truthy then
      pure answer
    else do
      let data ← normalizeAttributes response.data
      let valid ← pyDictGet data "valid" .none
      if valid.truthy then
        let attrs ← pyDictGet data "attributes" (.list [])
        let kws ← pyDictGet data "keywords" (.list [])
        (format_successful_classification attrs kws).map .str
      else
        let missing ← pyDictGet data "missingAttributes" (.list [])
        let attrs ← pyDictGet data "attributes" (.list [])
        (format_missing_info missing attrs).map .str

/-- Outcome of one `api_client.classify_message` call as seen by the retry
loop: either the coroutine returns an `APIResponse`, or an exception escapes
the call. -/
inductive ClientOutcome where
  | returns (resp : APIResponse)
  | faults (message : String)

/-- Observable actions of one run of `handle_message`: a call into the
client, an `asyncio.sleep` of the given number of seconds, and an outbound
`bot.reply_to` carrying the reply value. -/
inductive Event where
  | callClient
  | sleep (seconds : Nat)
  | send (reply : PyVal)

/-- The retry loop of `handle_message`, phrased by the number of loop
iterations still available: `handleAttempts cfg client remaining attempt`
runs the body of `for attempt in range(MAX_RETRIES)` with `remaining + 1`
iterations left, so `remaining = 0` exactly when
`attempt == config.MAX_RETRIES - 1`. Each iteration calls the client, and
either sends the processed reply and breaks, or (on an exception escaping
the client call or the response processing) sleeps `RETRY_DELAY` and goes
round again — sending the fixed apology instead when on the last attempt. -/
def handleAttempts (cfg : Config) (client : Nat → ClientOutcome) :
    Nat → Nat → List Event
  | 0, _ => []
  | remaining + 1, attempt =>
    Event.callClient ::
    (match client attempt with
     | .returns resp =>
       match processApiResponse resp with
       | .ok reply => [Event.send reply]
       | .error _ =>
         if remaining = 0 then [Event.send (.str retryExhaustedApology)]
         else Event.sleep cfg.RETRY_DELAY :: handleAttempts cfg client remaining (attempt + 1)
     | .faults _ =>
       if remaining = 0 then [Event.send (.str retryExhaustedApology)]
       else Event.sleep cfg.RETRY_DELAY :: handleAttempts cfg client remaining (attempt + 1))

/-- The `handle_message` handler for one incoming message, as the list of
events it produces: the retry loop started at attempt 0 with
`MAX_RETRIES` iterations available. -/
def handle_message (cfg : Config) (client : Nat → ClientOutcome) : List Event :=
  handleAttempts cfg client cfg.MAX_RETRIES 0

/-- The replies sent by a run, in order. -/
def sentReplies (events : List Event) : List PyVal :=
  events.filterMap fun e =>
    match e with
    | .send r => some r
    | _ => Option.none

/-! Helper lemmas: monadic reductions for `Except` and facts about the dict
embedding. -/

@[simp] theorem exceptBind_ok {ε α β : Type} (a : α) (f : α → Except ε β) :
    (Except.ok a >>= f : Except ε β) = f a := rfl

@[simp] theorem exceptBind_error {ε α β : Type} (e : ε) (f : α → Except ε β) :
    ((Except.error e : Except ε α) >>= f : Except ε β) = .error e := rfl

@[simp] theorem exceptPure_eq_ok {ε α : Type} (a : α) :
    (pure a : Except ε α) = .ok a := rfl

@[simp] theorem exceptMap_ok {ε α β : Type} (f : α → β) (a : α) :
    (Except.map f (.ok a) : Except ε β) = .ok (f a) := rfl

@[simp] theorem exceptMap_error {ε α β : Type} (f : α → β) (e : ε) :
    (Except.map f (.error e : Except ε α) : Except ε β) = .error e := rfl

theorem lookupAssoc_pySet_self (xs : List (String × PyVal)) (k0 : String) (v : PyVal) :
    lookupAssoc (pySet xs k0 v) k0 = some v := by
  induction xs with
  | nil => simp [pySet, lookupAssoc]
  | cons p rest ih => by_cases hp : p.1 = k0 <;> simp [pySet, hp, lookupAssoc, ih]

theorem lookupAssoc_pySet_ne (xs : List (String × PyVal)) (k k0 : String) (v : PyVal)
    (h : k ≠ k0) : lookupAssoc (pySet xs k0 v) k = lookupAssoc xs k := by
  induction xs with
  | nil => simp [pySet, lookupAssoc, Ne.symm h]
  | cons p rest ih =>
    by_cases hp : p.1 = k0
    · simp [pySet, hp, lookupAssoc, Ne.symm h]
    · by_cases hk : p.1 = k <;> simp [pySet, hp, lookupAssoc, hk, h, Ne.symm h, ih]

theorem normalizeAttributeValue_eq_some (p : String × PyVal) (a : PyVal) :
    normalizeAttributeValue p = some a ↔
      p.2 ≠ PyVal.none ∧ a = .dict [("name", .str p.1), ("value", p.2)] := by
  obtain ⟨n, v⟩ := p
  cases v <;> simp [normalizeAttributeValue, eq_comm]

theorem normalizeAttributes_dict_shape (xs : List (String × PyVal)) :
    ∃ ys : List (String × PyVal),
      normalizeAttributes (.dict xs) = .ok (.dict ys) ∧
      ∀ k, k ≠ "attributes" → lookupAssoc ys k = lookupAssoc xs k := by
  cases hl : lookupAssoc xs "attributes" with
  | none => exact ⟨xs, by simp [normalizeAttributes, hl], fun _ _ => rfl⟩
  | some v =>
    cases v with
    | dict m =>
      exact ⟨pySet xs "attributes" (.list (m.filterMap normalizeAttributeValue)),
        by simp [normalizeAttributes, hl],
        fun k hk => lookupAssoc_pySet_ne xs k "attributes" _ hk⟩
    | none => exact ⟨xs, by simp [normalizeAttributes, hl], fun _ _ => rfl⟩
    | str s => exact ⟨xs, by simp [normalizeAttributes, hl], fun _ _ => rfl⟩
    | bool b => exact ⟨xs, by simp [normalizeAttributes, hl], fun _ _ => rfl⟩
    | int n => exact ⟨xs, by simp [normalizeAttributes, hl], fun _ _ => rfl⟩
    | list l => exact ⟨xs, by simp [normalizeAttributes, hl], fun _ _ => rfl⟩

/-- C4: for every `Success` payload whose `answer` field is a present,
non-empty string, `process_api_response` returns exactly that string
verbatim — whatever else (including malformed attribute data) the payload
contains, no normalization or formatting touches the result. -/
theorem answer_passthrough_verbatim (xs : List (String × PyVal)) (err : Option String)
    (s : String) (h : lookupAssoc xs "answer" = some (.str s)) (hne : s ≠ "") :
    processApiResponse ⟨true, .dict xs, err⟩ = .ok (.str s) := by
  simp [processApiResponse, pyDictGet, h, PyVal.truthy, hne]

/-- Witness for C4: a payload carrying a ready answer together with a junk
`attributes` field still yields the answer verbatim. -/
theorem answer_passthrough_verbatim_witness :
    processApiResponse
      ⟨true, .dict [("attributes", .int 7), ("answer", .str "готовый ответ")], Option.none⟩ =
      .ok (.str "готовый ответ") :=
  answer_passthrough_verbatim _ _ "готовый ответ" rfl (by decide)

/-- C5: whenever the `attributes` field of a payload is a mapping,
normalization replaces it by the list of `{name, value}` records built from
exactly the entries whose value is non-null; in particular the mapping
`{"serial_number": "ABC123", "equipment_type": null}` becomes exactly
`[{name: "serial_number", value: "ABC123"}]`. -/
theorem attributes_mapping_normalization :
    (∀ (xs m : List (String × PyVal)), lookupAssoc xs "attributes" = some (.dict m) →
      ∃ l : List PyVal,
        normalizeAttributes (.dict xs) = .ok (.dict (pySet xs "attributes" (.list l))) ∧
        ∀ a, a ∈ l ↔ ∃ n v, (n, v) ∈ m ∧ v ≠ PyVal.none ∧
          a = .dict [("name", .str n), ("value", v)]) ∧
    normalizeAttributes (.dict [("attributes",
        .dict [("serial_number", .str "ABC123"), ("equipment_type", PyVal.none)])]) =
      .ok (.dict [("attributes",
        .list [.dict [("name", .str "serial_number"), ("value", .str "ABC123")]])]) := by
  constructor
  · intro xs m h
    refine ⟨m.filterMap normalizeAttributeValue, by simp [normalizeAttributes, h], ?_⟩
    intro a
    rw [List.mem_filterMap]
    constructor
    · rintro ⟨⟨n, v⟩, hmem, hval⟩
      rw [normalizeAttributeValue_eq_some] at hval
      exact ⟨n, v, hmem, hval.1, hval.2⟩
    · rintro ⟨n, v, hmem, hnv, ha⟩
      exact ⟨⟨n, v⟩, hmem, (normalizeAttributeValue_eq_some ⟨n, v⟩ a).mpr ⟨hnv, ha⟩⟩
  · rfl

/-- Witness for C5: the general mapping-normalization statement applied to
the payload `{"attributes": {"serial_number": "ABC123", "equipment_type": null}}`. -/
theorem attributes_mapping_normalization_witness :
    ∃ l : List PyVal,
      normalizeAttributes (.dict [("attributes",
          .dict [("serial_number", .str "ABC123"), ("equipment_type", PyVal.none)])]) =
        .ok (.dict (pySet [("attributes",
          .dict [("serial_number", .str "ABC123"), ("equipment_type", PyVal.none)])]
          "attributes" (.list l))) ∧
      ∀ a, a ∈ l ↔ ∃ n v,
        (n, v) ∈ [("serial_number", PyVal.str "ABC123"), ("equipment_type", PyVal.none)] ∧
        v ≠ PyVal.none ∧ a = .dict [("name", .str n), ("value", v)] :=
  attributes_mapping_normalization.1 _ _ rfl

/-- C9 counterexample: a payload whose `attributes` arrives as a LIST
containing a null-valued record is passed through unchanged by
normalization, so the resulting attribute list still contains an attribute
whose `value` is null — refuting the claim that after normalization every
attribute has a non-null value whether attributes arrived as a mapping or
as a list. -/
theorem list_attributes_null_passthrough_cex :
    normalizeAttributes (.dict [("attributes",
        .list [.dict [("name", .str "equipment_type"), ("value", PyVal.none)]])]) =
      .ok (.dict [("attributes",
        .list [.dict [("name", .str "equipment_type"), ("value", PyVal.none)]])]) ∧
    lookupAssoc [("name", PyVal.str "equipment_type"), ("value", PyVal.none)] "value" =
      some PyVal.none :=
  ⟨rfl, rfl⟩

/-- C9 amended: attributes that arrive as a mapping are normalized to records
whose values are all non-null (null entries dropped); attributes that arrive
as a list are passed through entirely unchanged, so a null value in a list
input survives normalization. -/
theorem normalization_null_invariant :
    (∀ (xs m : List (String × PyVal)),
      lookupAssoc xs "attributes" = some (.dict m) →
      ∃ l : List PyVal,
        normalizeAttributes (.dict xs) = .ok (.dict (pySet xs "attributes" (.list l))) ∧
        ∀ a ∈ l, ∀ ys, a = PyVal.dict ys → lookupAssoc ys "value" ≠ some PyVal.none) ∧
    (∀ (xs : List (String × PyVal)) (l : List PyVal),
      lookupAssoc xs "attributes" = some (.list l) →
      normalizeAttributes (.dict xs) = .ok (.dict xs)) := by
  constructor
  · intro xs m h
    refine ⟨m.filterMap normalizeAttributeValue, by simp [normalizeAttributes, h], ?_⟩
    intro a ha ys hys
    rw [List.mem_filterMap] at ha
    obtain ⟨⟨n, v⟩, _, hval⟩ := ha
    rw [normalizeAttributeValue_eq_some] at hval
    rw [hys] at hval
    obtain ⟨hnv, hdict⟩ := hval
    cases hdict
    simp [lookupAssoc, hnv]
  · intro xs l h
    simp [normalizeAttributes, h]

/-- Witness for C9's amended statement: the mapping half applied to a mapping
with one null entry, and the list half applied to a list with one null-valued
record. -/
theorem normalization_null_invariant_witness :
    (∃ l : List PyVal,
      normalizeAttributes (.dict [("attributes",
          .dict [("serial_number", .str "ABC123"), ("equipment_type", PyVal.none)])]) =
        .ok (.dict (pySet [("attributes",
          .dict [("serial_number", .str "ABC123"), ("equipment_type", PyVal.none)])]
          "attributes" (.list l))) ∧
      ∀ a ∈ l, ∀ ys, a = PyVal.dict ys → lookupAssoc ys "value" ≠ some PyVal.none) ∧
    normalizeAttributes (.dict [("attributes",
        .list [.dict [("name", .str "failure_point"), ("value", PyVal.none)]])]) =
      .ok (.dict [("attributes",
        .list [.dict [("name", .str "failure_point"), ("value", PyVal.none)]])]) :=
  ⟨normalization_null_invariant.1 _ _ rfl, normalization_null_invariant.2 _ _ rfl⟩

/-- C10: the normalization step of `process_api_response` can change only the
`attributes` key of the payload dict — the value found under every other key
(recognized or not) is unchanged. -/
theorem normalization_frame (xs : List (String × PyVal)) (k : String)
    (h : k ≠ "attributes") :
    ∃ ys : List (String × PyVal),
      normalizeAttributes (.dict xs) = .ok (.dict ys) ∧
      lookupAssoc ys k = lookupAssoc xs k := by
  obtain ⟨ys, hok, hframe⟩ := normalizeAttributes_dict_shape xs
  exact ⟨ys, hok, hframe k h⟩

/-- Witness for C10: on a payload with a mapping `attributes` plus `valid` and
`keywords` fields, normalization leaves the `valid` value untouched. -/
theorem normalization_frame_witness :
    ∃ ys : List (String × PyVal),
      normalizeAttributes (.dict [("valid", .bool true),
        ("attributes", .dict [("serial_number", .str "ABC123")]),
        ("keywords", .list [.str "экран"])]) = .ok (.dict ys) ∧
      lookupAssoc ys "valid" =
        lookupAssoc [("valid", PyVal.bool true),
          ("attributes", .dict [("serial_number", .str "ABC123")]),
          ("keywords", .list [.str "экран"])] "valid" :=
  normalization_frame _ "valid" (by decide)

/-- Length of the Python slice `s[:n]`. -/
theorem pySlice_length (s : String) (n : Nat) : (pySlice s n).length = min n s.length := by
  show (s.data.take n).length = min n s.length
  exact List.length_take ..

/-- C6: `classify_message` never lets a fault escape — every HTTP outcome is
turned into an `APIResponse`, every unsuccessful outcome carries a reason
string, a non-200 status yields a failure whose reason is exactly
`"API вернул статус <status>: <body>"` (containing the status code and the
raw body text), a timeout yields the fixed timeout reason, and any other
exception yields its own description as the reason. -/
theorem classify_never_uncaught (cfg : Config) (text : String) :
    (∀ outcome : HttpOutcome,
      (classify_message cfg text outcome).result.success = false →
      ((classify_message cfg text outcome).result.error).isSome) ∧
    (∀ (status : Nat) (body : String) (json : Except String PyVal), status ≠ 200 →
      (classify_message cfg text (.response status body json)).result.success = false ∧
      (classify_message cfg text (.response status body json)).result.error =
        some ("API вернул статус " ++ toString status ++ ": " ++ body)) ∧
    ((classify_message cfg text .timeoutError).result.success = false ∧
      (classify_message cfg text .timeoutError).result.error =
        some "Превышено время ожидания ответа") ∧
    (∀ (m : String),
      (classify_message cfg text (.exception m)).result.success = false ∧
      (classify_message cfg text (.exception m)).result.error = some m) := by
  refine ⟨?_, ?_, ?_, ?_⟩
  · intro outcome h
    cases outcome with
    | response st b j =>
      by_cases hst : st = 200
      · cases j with
        | ok r => simp [classify_message, hst, APIResponse.make] at h
        | error e => simp [classify_message, hst, APIResponse.make]
      · simp [classify_message, hst, APIResponse.make]
    | timeoutError => simp [classify_message, APIResponse.make]
    | exception m => simp [classify_message, APIResponse.make]
  · intro st b j hst
    exact ⟨by simp [classify_message, hst, APIResponse.make],
      by simp [classify_message, hst, APIResponse.make]⟩
  · exact ⟨by simp [classify_message, APIResponse.make],
      by simp [classify_message, APIResponse.make]⟩
  · intro m
    exact ⟨by simp [classify_message, APIResponse.make],
      by simp [classify_message, APIResponse.make]⟩

/-- Witness for C6: a 500 response with body "Internal Server Error" becomes
a clean failure whose reason names the status and the body. -/
theorem classify_never_uncaught_witness :
    (classify_message defaultConfig "не работает ноутбук"
      (.response 500 "Internal Server Error" (.error "json error"))).result.success = false ∧
    (classify_message defaultConfig "не работает ноутбук"
      (.response 500 "Internal Server Error" (.error "json error"))).result.error =
      some ("API вернул статус " ++ toString 500 ++ ": " ++ "Internal Server Error") :=
  (classify_never_uncaught defaultConfig "не работает ноутбук").2.1
    500 "Internal Server Error" (.error "json error") (by decide)

/-- C7: when the incoming text is longer than `MAX_TEXT_LENGTH` the request
body's `text` field is the silent truncation to exactly `MAX_TEXT_LENGTH`
characters; when it is within the limit the text is sent unchanged. -/
theorem classify_truncation (cfg : Config) (text : String) (outcome : HttpOutcome) :
    (cfg.MAX_TEXT_LENGTH < text.length →
      lookupAssoc (classify_message cfg text outcome).requestBody "text" =
        some (.str (pySlice text cfg.MAX_TEXT_LENGTH)) ∧
      (pySlice text cfg.MAX_TEXT_LENGTH).length = cfg.MAX_TEXT_LENGTH) ∧
    (text.length ≤ cfg.MAX_TEXT_LENGTH →
      lookupAssoc (classify_message cfg text outcome).requestBody "text" =
        some (.str text)) := by
  constructor
  · intro h
    refine ⟨by simp [classify_message, lookupAssoc, h], ?_⟩
    rw [pySlice_length]
    exact Nat.min_eq_left (Nat.le_of_lt h)
  · intro h
    simp [classify_message, lookupAssoc, Nat.not_lt.mpr h]

/-- Witness for C7: with `MAX_TEXT_LENGTH = 3`, the text "abcde" is sent as a
3-character string while "ab" is sent unchanged. -/
theorem classify_truncation_witness :
    (lookupAssoc (classify_message
        { defaultConfig with MAX_TEXT_LENGTH := 3 } "abcde" .timeoutError).requestBody "text" =
      some (.str (pySlice "abcde" 3)) ∧ (pySlice "abcde" 3).length = 3) ∧
    lookupAssoc (classify_message
        { defaultConfig with MAX_TEXT_LENGTH := 3 } "ab" .timeoutError).requestBody "text" =
      some (.str "ab") :=
  ⟨(classify_truncation { defaultConfig with MAX_TEXT_LENGTH := 3 } "abcde" .timeoutError).1
      (by decide),
    (classify_truncation { defaultConfig with MAX_TEXT_LENGTH := 3 } "ab" .timeoutError).2
      (by decide)⟩

/-- Loop invariant for the retry loop: as long as at least one iteration is
available, exactly one reply is sent, and it is either the retry-exhaustion
apology or the processed result of a completed client call. -/
theorem handleAttempts_one_reply (cfg : Config) (client : Nat → ClientOutcome) :
    ∀ (remaining attempt : Nat), 1 ≤ remaining →
      ∃ r, sentReplies (handleAttempts cfg client remaining attempt) = [r] ∧
        (r = .str retryExhaustedApology ∨
          ∃ n resp, client n = .returns resp ∧ processApiResponse resp = .ok r) := by
  intro remaining
  induction remaining with
  | zero => intro attempt h; exact absurd h (by decide)
  | succ rem ih =>
    intro attempt _
    cases hc : client attempt with
    | returns resp =>
      cases hp : processApiResponse resp with
      | ok reply =>
        exact ⟨reply, by simp [handleAttempts, hc, hp, sentReplies], 
          Or.inr ⟨attempt, resp, hc, hp⟩⟩
      | error e =>
        cases rem with
        | zero =>
          exact ⟨.str retryExhaustedApology,
            by simp [handleAttempts, hc, hp, sentReplies], Or.inl rfl⟩
        | succ rem2 =>
          obtain ⟨r, hr, hor⟩ := ih (attempt + 1) (Nat.succ_le_succ (Nat.zero_le rem2))
          exact ⟨r, by simpa [handleAttempts, hc, hp, sentReplies] using hr, hor⟩
    | faults m =>
      cases rem with
      | zero =>
        exact ⟨.str retryExhaustedApology,
          by simp [handleAttempts, hc, sentReplies], Or.inl rfl⟩
      | succ rem2 =>
        obtain ⟨r, hr, hor⟩ := ih (attempt + 1) (Nat.succ_le_succ (Nat.zero_le rem2))
        exact ⟨r, by simpa [handleAttempts, hc, sentReplies] using hr, hor⟩

/-- C1: per incoming message, `handle_message` sends exactly one outbound
reply — the processed result of some completed client call, or the fixed
retry-exhaustion apology — never two and never zero, whichever attempts
fault. -/
theorem handle_message_exactly_one_reply (cfg : Config) (client : Nat → ClientOutcome)
    (h : 1 ≤ cfg.MAX_RETRIES) :
    ∃ r, sentReplies (handle_message cfg client) = [r] ∧
      (r = .str retryExhaustedApology ∨
        ∃ n resp, client n = .returns resp ∧ processApiResponse resp = .ok r) :=
  handleAttempts_one_reply cfg client cfg.MAX_RETRIES 0 h

/-- Witness for C1: one reply is sent even when every attempt faults. -/
theorem handle_message_exactly_one_reply_witness :
    ∃ r, sentReplies (handle_message defaultConfig fun _ => .faults "connection reset") = [r] ∧
      (r = .str retryExhaustedApology ∨
        ∃ n resp, (fun _ : Nat => ClientOutcome.faults "connection reset") n = .returns resp ∧
          processApiResponse resp = .ok r) :=
  handle_message_exactly_one_reply defaultConfig (fun _ => .faults "connection reset") (by decide)

/-- C2: a client call that completes with a clean failure result is not
retried: the client is called exactly once and the apology reply is sent
immediately, with no sleep. -/
theorem clean_failure_single_call (cfg : Config) (client : Nat → ClientOutcome)
    (resp : APIResponse) (hmr : 1 ≤ cfg.MAX_RETRIES)
    (hc : client 0 = .returns resp) (hf : resp.success = false) :
    handle_message cfg client =
      [Event.callClient, Event.send (.str processingErrorApology)] := by
  obtain ⟨r, hr⟩ : ∃ r, cfg.MAX_RETRIES = r + 1 :=
    ⟨cfg.MAX_RETRIES - 1, (Nat.succ_pred_eq_of_pos hmr).symm⟩
  simp [handle_message, hr, handleAttempts, hc, processApiResponse, hf]

/-- Witness for C2: a stub returning `Failure("API вернул статус 500: ...")`
on the first call produces one client call and the immediate apology. -/
theorem clean_failure_single_call_witness :
    handle_message defaultConfig (fun _ => .returns (APIResponse.make false Option.none
        (some "API вернул статус 500: Internal Server Error"))) =
      [Event.callClient, Event.send (.str processingErrorApology)] :=
  clean_failure_single_call defaultConfig _ _ (by decide) rfl rfl

/-- C3: with `MAX_RETRIES = 3` and a client faulting on every attempt, the
loop calls the client exactly 3 times, sleeps `RETRY_DELAY` between
consecutive attempts, and sends exactly one apology after the final
attempt. -/
theorem retry_exhaustion_trace (cfg : Config) (client : Nat → ClientOutcome)
    (hmr : cfg.MAX_RETRIES = 3) (h : ∀ n, ∃ m, client n = .faults m) :
    handle_message cfg client =
      [Event.callClient, Event.sleep cfg.RETRY_DELAY,
       Event.callClient, Event.sleep cfg.RETRY_DELAY,
       Event.callClient, Event.send (.str retryExhaustedApology)] := by
  obtain ⟨m0, h0⟩ := h 0
  obtain ⟨m1, h1⟩ := h 1
  obtain ⟨m2, h2⟩ := h 2
  simp [handle_message, hmr, handleAttempts, h0, h1, h2]

/-- Witness for C3: the default configuration with an always-faulting stub
produces the exact call/sleep/call/sleep/call/apology trace. -/
theorem retry_exhaustion_trace_witness :
    handle_message defaultConfig (fun _ => .faults "ServerDisconnectedError") =
      [Event.callClient, Event.sleep 5, Event.callClient, Event.sleep 5,
       Event.callClient, Event.send (.str retryExhaustedApology)] :=
  retry_exhaustion_trace defaultConfig _ rfl (fun _ => ⟨"ServerDisconnectedError", rfl⟩)

/-- Sequencing of two fault-free `Except` computations is fault-free. -/
theorem exceptBind_ok_of_ok {α β : Type} (x : Except String α) (f : α → Except String β)
    (hx : ∃ a, x = .ok a) (hf : ∀ a, x = .ok a → ∃ b, f a = .ok b) :
    ∃ b, (x >>= f) = .ok b := by
  obtain ⟨a, ha⟩ := hx
  rw [ha]
  simpa using hf a ha

/-- Attribute records on which the formatters' loop bodies cannot raise: a
dict carrying a string `name` and some `value`. -/
def FormatsOk (a : PyVal) : Prop :=
  ∃ ys, a = PyVal.dict ys ∧ (∃ s, lookupAssoc ys "name" = some (.str s)) ∧
    (lookupAssoc ys "value").isSome

/-- Payload well-formedness per the data model: each recognized optional key
is either absent or has its declared shape (`answer` a string, `attributes` a
mapping or a list of attribute records, `missingAttributes` and `keywords`
lists of strings); `valid` and unrecognized keys are unconstrained. -/
def WFPayload (xs : List (String × PyVal)) : Prop :=
  (∀ v, lookupAssoc xs "answer" = some v → ∃ s, v = PyVal.str s) ∧
  (∀ v, lookupAssoc xs "attributes" = some v →
    (∃ m, v = PyVal.dict m) ∨ (∃ l, v = PyVal.list l ∧ ∀ a ∈ l, FormatsOk a)) ∧
  (∀ v, lookupAssoc xs "missingAttributes" = some v →
    ∃ l, v = PyVal.list l ∧ ∀ a ∈ l, ∃ s, a = PyVal.str s) ∧
  (∀ v, lookupAssoc xs "keywords" = some v →
    ∃ l, v = PyVal.list l ∧ ∀ a ∈ l, ∃ s, a = PyVal.str s)

theorem successAttrLine_ok (a : PyVal) (h : FormatsOk a) (acc : String) :
    ∃ r, successAttrLine acc a = .ok r := by
  obtain ⟨ys, rfl, ⟨s, hn⟩, hv⟩ := h
  obtain ⟨v, hv2⟩ := Option.isSome_iff_exists.mp hv
  refine ⟨acc ++ "🔹 " ++ (List.lookup s attrNamesSuccess).getD s ++ ": " ++
    v.pyStr ++ "\n", ?_⟩
  simp [successAttrLine, pySubscript, hn, hv2, localizeKey]

theorem recognizedAttrLine_ok (a : PyVal) (h : FormatsOk a) (acc : String) :
    ∃ r, recognizedAttrLine acc a = .ok r := by
  obtain ⟨ys, rfl, ⟨s, hn⟩, hv⟩ := h
  obtain ⟨v, hv2⟩ := Option.isSome_iff_exists.mp hv
  refine ⟨acc ++ "- " ++ (List.lookup s attrNamesMissing).getD s ++ ": " ++
    v.pyStr ++ "\n", ?_⟩
  simp [recognizedAttrLine, pySubscript, hn, hv2, localizeKey]

theorem clarifyLine_ok (a : PyVal) (h : ∃ s, a = PyVal.str s) (acc : String) :
    ∃ r, clarifyLine acc a = .ok r := by
  obtain ⟨s, rfl⟩ := h
  refine ⟨acc ++ "- " ++ (List.lookup s attrNamesMissing).getD s ++ "\n", ?_⟩
  simp [clarifyLine, localizeKey]

theorem foldlM_ok_of_steps {α : Type} (f : String → α → Except String String) :
    ∀ (l : List α), (∀ a ∈ l, ∀ acc, ∃ r, f acc a = .ok r) →
      ∀ acc, ∃ r, List.foldlM f acc l = .ok r := by
  intro l
  induction l with
  | nil => exact fun _ acc => ⟨acc, rfl⟩
  | cons a rest ih =>
    intro h acc
    obtain ⟨r1, hr1⟩ := h a (List.mem_cons_self a rest) acc
    obtain ⟨r2, hr2⟩ := ih (fun b hb acc2 => h b (List.mem_cons_of_mem a hb) acc2) r1
    exact ⟨r2, by simp [List.foldlM_cons, hr1, hr2]⟩

theorem mapM_pyJoinPart_ok :
    ∀ (l : List PyVal), (∀ a ∈ l, ∃ s, a = PyVal.str s) →
      ∃ rs, l.mapM pyJoinPart = .ok rs := by
  intro l
  induction l with
  | nil => exact fun _ => ⟨[], List.mapM_nil pyJoinPart⟩
  | cons a rest ih =>
    intro h
    obtain ⟨s, hs⟩ := h a (List.mem_cons_self a rest)
    obtain ⟨rs, hrs⟩ := ih (fun b hb => h b (List.mem_cons_of_mem _ hb))
    refine ⟨s :: rs, ?_⟩
    have hrs2 : List.mapM.loop pyJoinPart rest [] = Except.ok rs := hrs
    rw [List.mapM_cons, hs]
    simp [pyJoinPart, hrs2]

theorem format_successful_classification_ok (attrs ks : List PyVal)
    (hattrs : ∀ a ∈ attrs, FormatsOk a) (hks : ∀ k ∈ ks, ∃ s, k = PyVal.str s) :
    ∃ r, format_successful_classification (.list attrs) (.list ks) = .ok r := by
  simp only [format_successful_classification]
  apply exceptBind_ok_of_ok
  · exact ⟨attrs, rfl⟩
  · intro l hl
    obtain rfl : attrs = l := Except.ok.inj hl
    apply exceptBind_ok_of_ok
    · exact foldlM_ok_of_steps successAttrLine attrs
        (fun a ha acc => successAttrLine_ok a (hattrs a ha) acc) _
    · intro reply _
      by_cases ht : (PyVal.list ks).truthy = true
      · rw [if_pos ht]
        apply exceptBind_ok_of_ok
        · exact ⟨ks, rfl⟩
        · intro kws hkws
          obtain rfl : ks = kws := Except.ok.inj hkws
          apply exceptBind_ok_of_ok
          · exact mapM_pyJoinPart_ok ks hks
          · exact fun parts _ => ⟨_, rfl⟩
      · rw [if_neg ht]
        exact ⟨reply, rfl⟩

theorem format_missing_info_ok (ml rl : List PyVal)
    (hml : ∀ a ∈ ml, ∃ s, a = PyVal.str s) (hrl : ∀ a ∈ rl, FormatsOk a) :
    ∃ r, format_missing_info (.list ml) (.list rl) = .ok r := by
  have hclar : ∀ y : String, ∃ r, (do
      let ms ← pyIter (PyVal.list ml)
      List.foldlM clarifyLine (y ++ "❗️ Пожалуйста, уточните:\n") ms) = Except.ok r := by
    intro y
    apply exceptBind_ok_of_ok
    · exact ⟨ml, rfl⟩
    · intro ms hms
      obtain rfl : ml = ms := Except.ok.inj hms
      exact foldlM_ok_of_steps clarifyLine ml
        (fun a ha acc => clarifyLine_ok a (hml a ha) acc) _
  simp only [format_missing_info]
  by_cases ht : (PyVal.list rl).truthy = true
  · rw [if_pos ht]
    apply exceptBind_ok_of_ok
    · exact ⟨rl, rfl⟩
    · intro attrs hattrs
      obtain rfl : rl = attrs := Except.ok.inj hattrs
      apply exceptBind_ok_of_ok
      · exact foldlM_ok_of_steps recognizedAttrLine rl
          (fun a ha acc => recognizedAttrLine_ok a (hrl a ha) acc) _
      · intro r _
        apply exceptBind_ok_of_ok
        · exact ⟨r ++ "\n", rfl⟩
        · intro y _
          exact hclar y
  · rw [if_neg ht]
    apply exceptBind_ok_of_ok
    · exact ⟨_, rfl⟩
    · intro y _
      exact hclar y

/-- Normalization of a well-formed payload yields a dict whose `attributes`
entry (after the formatter's default) is a list of harmless records, all
other keys being untouched. -/
theorem normalizeAttributes_wf (xs : List (String × PyVal))
    (hattrs : ∀ v, lookupAssoc xs "attributes" = some v →
      (∃ m, v = PyVal.dict m) ∨ (∃ l, v = PyVal.list l ∧ ∀ a ∈ l, FormatsOk a)) :
    ∃ ys, normalizeAttributes (.dict xs) = .ok (.dict ys) ∧
      (∀ k, k ≠ "attributes" → lookupAssoc ys k = lookupAssoc xs k) ∧
      ∃ L, (lookupAssoc ys "attributes").getD (.list []) = PyVal.list L ∧
        ∀ a ∈ L, FormatsOk a := by
  cases hl : lookupAssoc xs "attributes" with
  | none =>
    exact ⟨xs, by simp [normalizeAttributes, hl], fun _ _ => rfl,
      [], by simp [hl], by simp⟩
  | some v =>
    rcases hattrs v hl with ⟨m, rfl⟩ | ⟨l, rfl, hFl⟩
    · refine ⟨pySet xs "attributes" (.list (m.filterMap normalizeAttributeValue)),
        by simp [normalizeAttributes, hl],
        fun k hk => lookupAssoc_pySet_ne xs k "attributes" _ hk,
        m.filterMap normalizeAttributeValue, by simp [lookupAssoc_pySet_self], ?_⟩
      intro a ha
      rw [List.mem_filterMap] at ha
      obtain ⟨⟨n, w⟩, _, hval⟩ := ha
      rw [normalizeAttributeValue_eq_some] at hval
      obtain ⟨hnw, rfl⟩ := hval
      exact ⟨_, rfl, ⟨n, by simp [lookupAssoc]⟩, by simp [lookupAssoc]⟩
    · exact ⟨xs, by simp [normalizeAttributes, hl], fun _ _ => rfl,
        l, by simp [hl], hFl⟩

/-- C8: on a well-formed `Success` payload, `process_api_response` cannot
fail, whichever of the optional keys `answer`, `valid`, `attributes`,
`missingAttributes`, `keywords` are absent: each missing field is defaulted
and a reply string is produced; when all five are absent the reply is the
missing-info message built entirely from the defaults (`valid` → false,
empty attribute and missing lists). -/
theorem missing_keys_defaulted (xs : List (String × PyVal)) (err : Option String)
    (hwf : WFPayload xs) :
    (∃ s, processApiResponse ⟨true, .dict xs, err⟩ = .ok (.str s)) ∧
    ((lookupAssoc xs "answer" = Option.none ∧ lookupAssoc xs "attributes" = Option.none ∧
      lookupAssoc xs "valid" = Option.none ∧ lookupAssoc xs "missingAttributes" = Option.none ∧
      lookupAssoc xs "keywords" = Option.none) →
      processApiResponse ⟨true, .dict xs, err⟩ =
        .ok (.str ("⚠️ Для обработки заявки требуется дополнительная информация\n\n" ++
          "❗️ Пожалуйста, уточните:\n"))) := by
  obtain ⟨hans, hattrs, hmiss, hkw⟩ := hwf
  obtain ⟨ys, hnorm, hframe, L, hLattr, hLok⟩ := normalizeAttributes_wf xs hattrs
  have hkwys : ∃ kl, (lookupAssoc ys "keywords").getD (.list []) = PyVal.list kl ∧
      ∀ a ∈ kl, ∃ s, a = PyVal.str s := by
    rw [hframe "keywords" (by decide)]
    cases hk : lookupAssoc xs "keywords" with
    | none => exact ⟨[], rfl, by simp⟩
    | some v =>
      obtain ⟨kl, rfl, hkl⟩ := hkw v hk
      exact ⟨kl, rfl, hkl⟩
  have hmissys : ∃ ml, (lookupAssoc ys "missingAttributes").getD (.list []) = PyVal.list ml ∧
      ∀ a ∈ ml, ∃ s, a = PyVal.str s := by
    rw [hframe "missingAttributes" (by decide)]
    cases hk : lookupAssoc xs "missingAttributes" with
    | none => exact ⟨[], rfl, by simp⟩
    | some v =>
      obtain ⟨ml, rfl, hml⟩ := hmiss v hk
      exact ⟨ml, rfl, hml⟩
  obtain ⟨kl, hklattr, hklstr⟩ := hkwys
  obtain ⟨ml, hmlattr, hmlstr⟩ := hmissys
  constructor
  · by_cases hansT : ((lookupAssoc xs "answer").getD PyVal.none).truthy = true
    · cases hansl : lookupAssoc xs "answer" with
      | none => rw [hansl] at hansT; simp [PyVal.truthy] at hansT
      | some v =>
        obtain ⟨s, rfl⟩ := hans v hansl
        rw [hansl] at hansT
        refine ⟨s, ?_⟩
        simp only [Option.getD_some] at hansT
        simp [processApiResponse, pyDictGet, hansl, hansT]
    · by_cases hv : ((lookupAssoc ys "valid").getD PyVal.none).truthy = true
      · obtain ⟨fr, hfr⟩ := format_successful_classification_ok L kl hLok hklstr
        refine ⟨fr, ?_⟩
        simp [processApiResponse, pyDictGet, hansT, hnorm, hv, hLattr, hklattr, hfr]
      · obtain ⟨fr, hfr⟩ := format_missing_info_ok ml L hmlstr hLok
        refine ⟨fr, ?_⟩
        simp [processApiResponse, pyDictGet, hansT, hnorm, hv, hLattr, hmlattr, hfr]
  · rintro ⟨ha, hat, hva, hmi, hke⟩
    have hys : normalizeAttributes (.dict xs) = .ok (.dict xs) := by
      simp [normalizeAttributes, hat]
    simp [processApiResponse, pyDictGet, ha, hat, hva, hmi, hke, hys, PyVal.truthy,
      format_missing_info, pyIter]

/-- Witness for C8: the empty payload (every optional key absent) is
processed without failure, and the reply is the default missing-info
message. -/
theorem missing_keys_defaulted_witness :
    (∃ s, processApiResponse ⟨true, .dict [], Option.none⟩ = .ok (.str s)) ∧
    processApiResponse ⟨true, .dict [], Option.none⟩ =
      .ok (.str ("⚠️ Для обработки заявки требуется дополнительная информация\n\n" ++
        "❗️ Пожалуйста, уточните:\n")) :=
  ⟨(missing_keys_defaulted [] Option.none (by simp [WFPayload, lookupAssoc])).1,
   (missing_keys_defaulted [] Option.none (by simp [WFPayload, lookupAssoc])).2
     ⟨rfl, rfl, rfl, rfl, rfl⟩⟩
